import Mathlib

/-!
Verification development for the rt-esp-at-nal driver (ESP-AT network layer).

The driver's URC parser (src/urc.rs), session state and adapter operations
(src/wifi.rs, src/stack.rs) and the IPv6 codec (src/commands.rs) are embedded
shallowly: byte buffers become `List Nat`, fallible Rust operations
(slice indexing, str slicing at non-char-boundaries, array indexing) become
`Option`-valued operations where `none` models a Rust panic, and the mock
environment (AT command responses, timer polls, pending URC messages) is
passed explicitly.
-/

namespace EspAtNal

/-- Byte buffers (`&[u8]` / `heapless::Vec<u8, N>`). Each element is one byte. -/
abbrev Bytes := List Nat

/-! ## UTF-8 machinery, modelling `core::str` behaviour.

Rust's `core::str::from_utf8` validates RFC-3629 UTF-8; `&str[a..b]` panics
unless `a ≤ b ≤ len` and both indices are char boundaries. -/

/-- True for UTF-8 continuation bytes `0x80..=0xBF`. -/
def isCont (b : Nat) : Bool := 128 ≤ b && b < 192

/-- UTF-8 validity of a byte sequence, as decided by `core::str::from_utf8`:
ASCII, 2-byte sequences `C2..DF`, 3-byte sequences `E0..EF` (with the `E0`
overlong and `ED` surrogate exclusions) and 4-byte sequences `F0..F4` (with
the `F0` overlong and `F4` range exclusions). -/
def utf8Valid : Bytes → Bool
  | [] => true
  | b :: rest =>
    if b < 128 then utf8Valid rest
    else if b < 194 then false
    else if b < 224 then
      match rest with
      | b1 :: r => isCont b1 && utf8Valid r
      | [] => false
    else if b < 240 then
      match rest with
      | b1 :: b2 :: r =>
        (if b = 224 then decide (160 ≤ b1) && decide (b1 < 192)
         else if b = 237 then decide (128 ≤ b1) && decide (b1 < 160)
         else isCont b1) && isCont b2 && utf8Valid r
      | _ => false
    else if b < 245 then
      match rest with
      | b1 :: b2 :: b3 :: r =>
        (if b = 240 then decide (144 ≤ b1) && decide (b1 < 192)
         else if b = 244 then decide (128 ≤ b1) && decide (b1 < 144)
         else isCont b1) && isCont b2 && isCont b3 && utf8Valid r
      | _ => false
    else false

/-- Rust `str::is_char_boundary` on the byte representation: index 0 and the
length are boundaries, an interior index is a boundary when it does not point
at a continuation byte, and an index past the end is not a boundary. -/
def isCharBoundary (s : Bytes) (i : Nat) : Bool :=
  if i = 0 then true
  else if i = s.length then true
  else if i < s.length then !(isCont (s.getD i 0))
  else false

/-- Rust `&str[a..b]`: `some` slice when the range is valid and both ends are
char boundaries, `none` for the panic otherwise. -/
def strSlice (s : Bytes) (a b : Nat) : Option Bytes :=
  if a ≤ b && isCharBoundary s a && isCharBoundary s b then
    some ((s.take b).drop a)
  else none

/-- Rust `&bytes[a..b]` on a byte slice: `some` when `a ≤ b ≤ len`,
`none` for the panic otherwise. -/
def byteSlice (s : Bytes) (a b : Nat) : Option Bytes :=
  if a ≤ b && b ≤ s.length then some ((s.take b).drop a) else none

/-- Rust `slice::split` / `str::split` on a single ASCII byte `c`
(non-overlapping, leftmost, keeps empty parts, yields a trailing empty part
after a final separator). -/
def splitOnByte (c : Nat) : Bytes → List Bytes
  | [] => [[]]
  | b :: rest =>
    if b = c then [] :: splitOnByte c rest
    else
      match splitOnByte c rest with
      | [] => [[b]]
      | l :: ls => (b :: l) :: ls

/-- Rust `str::split("\r\n")` on the byte representation (the pattern is
ASCII, so byte-level splitting agrees with char-level splitting on valid
UTF-8). -/
def splitCRLF : Bytes → List Bytes
  | [] => [[]]
  | 13 :: 10 :: rest => [] :: splitCRLF rest
  | b :: rest =>
    match splitCRLF rest with
    | [] => [[b]]
    | l :: ls => (b :: l) :: ls

/-- Rust `str::contains` for an ASCII needle, as byte-level substring search. -/
def containsSub (needle : Bytes) : Bytes → Bool
  | [] => needle.isEmpty
  | b :: rest => needle.isPrefixOf (b :: rest) || containsSub needle rest

/-- Decimal digit run parse: `some` value for a nonempty all-digit string. -/
def parseDigits (s : Bytes) : Option Nat :=
  if s ≠ [] ∧ s.all (fun b => 48 ≤ b && b ≤ 57) then
    some (s.foldl (fun acc b => acc * 10 + (b - 48)) 0)
  else none

/-- Rust `str::parse::<usize>`: optional leading `+`, then a nonempty digit
run whose value fits in 64 bits. -/
def parseUsize (s : Bytes) : Option Nat :=
  let t := match s with
    | 43 :: rest => rest
    | _ => s
  match parseDigits t with
  | some v => if v < 2 ^ 64 then some v else none
  | none => none

/-! ## Byte-string needles used by src/urc.rs (ASCII codes). -/

/-- ASCII bytes of the literal AT+ . -/
def atPlusNeedle : Bytes := [65, 84, 43]

/-- ASCII bytes of the literal +IPD . -/
def ipdNeedle : Bytes := [43, 73, 80, 68]

/-- ASCII bytes of the literal +CIPRECVDATA, (13 bytes, trailing comma). -/
def cipRecvDataComma : Bytes := [43, 67, 73, 80, 82, 69, 67, 86, 68, 65, 84, 65, 44]

/-- ASCII bytes of the literal ready . -/
def readyNeedle : Bytes := [114, 101, 97, 100, 121]

/-- ASCII bytes of the literal SEND OK . -/
def sendOkNeedle : Bytes := [83, 69, 78, 68, 32, 79, 75]

/-- ASCII bytes of the literal SEND FAIL . -/
def sendFailNeedle : Bytes := [83, 69, 78, 68, 32, 70, 65, 73, 76]

/-- ASCII bytes of the literal WIFI . -/
def wifiNeedle : Bytes := [87, 73, 70, 73]

/-- ASCII bytes of the literal ,CONNECT . -/
def connectNeedle : Bytes := [44, 67, 79, 78, 78, 69, 67, 84]

/-- ASCII bytes of the literal ,CLOSED . -/
def closedNeedle : Bytes := [44, 67, 76, 79, 83, 69, 68]

/-- ASCII bytes of the literal ALREADY CONNECTED . -/
def alreadyConnectedNeedle : Bytes :=
  [65, 76, 82, 69, 65, 68, 89, 32, 67, 79, 78, 78, 69, 67, 84, 69, 68]

/-- ASCII bytes of the literal Recv . -/
def recvNeedle : Bytes := [82, 101, 99, 118]

/-- ASCII bytes of the literal bytes . -/
def bytesNeedle : Bytes := [98, 121, 116, 101, 115]

/-- ASCII bytes of the literal WIFI CONNECTED . -/
def wifiConnectedNeedle : Bytes := wifiNeedle ++ [32, 67, 79, 78, 78, 69, 67, 84, 69, 68]

/-- ASCII bytes of the literal WIFI DISCONNECT . -/
def wifiDisconnectNeedle : Bytes := wifiNeedle ++ [32, 68, 73, 83, 67, 79, 78, 78, 69, 67, 84]

/-- ASCII bytes of the literal WIFI GOT IP . -/
def wifiGotIpNeedle : Bytes := wifiNeedle ++ [32, 71, 79, 84, 32, 73, 80]

/-- ASCII bytes of the literal rst cause: . -/
def rstCauseNeedle : Bytes := [114, 115, 116, 32, 99, 97, 117, 115, 101, 58]

/-- ASCII bytes of ready followed by CR. -/
def readyCR : Bytes := readyNeedle ++ [13]

/-- ASCII bytes of ready followed by CRLF. -/
def readyCRLF : Bytes := readyNeedle ++ [13, 10]

/-! ## First-pass URC parser: `impl Parser for URCMessages` (src/urc.rs). -/

/-- Result of the first-pass parse `Parser::parse`: a framed message with the
total consumed byte count, `ParseError::Incomplete`, `ParseError::NoMatch`,
or a Rust panic. -/
inductive ParseOutcome
  | ok (frame : Bytes) (consumed : Nat)
  | incomplete
  | noMatch
  | panic
deriving DecidableEq, Repr

/-- Result of `DataResponseParser::parse` (src/urc.rs lines 254-282). -/
inductive DataParse
  | msg (length : Nat) (lengthStr : Bytes) (data : Bytes)
  | incomplete
  | noMatch
  | panic
deriving DecidableEq, Repr

/-- `DataResponseParser::parse`: finds the first `:` separator, decodes
`buffer[13..separator]` as the decimal length, and requires all declared
payload bytes after the separator; `data` is the whole remainder. -/
def dataResponseParse (buffer : Bytes) : DataParse :=
  match buffer.findIdx? (fun b => b == 58) with
  | none => .incomplete
  | some sep =>
    match byteSlice buffer 13 sep with
    | none => .panic
    | some lenBytes =>
      if utf8Valid lenBytes then
        match parseUsize lenBytes with
        | none => .noMatch
        | some len =>
          let remaining := buffer.drop (sep + 1)
          if remaining.length < len then .incomplete
          else .msg len lenBytes remaining
      else .noMatch

/-- `SizeBasedMatcher::matches` (src/urc.rs lines 151-164): `some start` when
the buffer is ≥ 15 bytes and, after skipping leading CR/LF bytes, begins with
the 13-byte prefix +CIPRECVDATA, (the comma-delimited legacy form). -/
def sizeMatches (buffer : Bytes) : Option Nat :=
  if buffer.length < 15 then none
  else
    match buffer.findIdx? (fun b => !(b == 13) && !(b == 10)) with
    | none => none
    | some start =>
      let data := buffer.drop start
      if data.length < 13 || !(data.take 13 == cipRecvDataComma) then none
      else some start

/-- `SizeBasedMatcher::handle` (src/urc.rs lines 167-173). -/
def sizeHandle (buffer : Bytes) (start : Nat) : ParseOutcome :=
  let data := buffer.drop start
  match dataResponseParse data with
  | .panic => .panic
  | .incomplete => .incomplete
  | .noMatch => .noMatch
  | .msg len lenStr _ =>
    let total := start + 13 + lenStr.length + 1 + len
    match byteSlice data 0 (total - start) with
    | none => .panic
    | some frame => .ok frame total

/-- `LineBasedMatcher::matches_receive_confirmation` (src/urc.rs lines
235-246); `none` models the str-slice panic at a non-char-boundary. -/
def matchesReceiveConfirmation (line : Bytes) : Option Bool :=
  if line.length < 12 then some false
  else
    match strSlice line 0 4 with
    | none => none
    | some p4 =>
      if !(p4 == recvNeedle) then some false
      else
        match strSlice line (line.length - 6) line.length with
        | none => none
        | some post => some (!(post == bytesNeedle))

/-- `LineBasedMatcher::matches_lines_based_urc` (src/urc.rs lines 221-232),
with the source's left-to-right short-circuit evaluation; `none` models a
str-slice panic at a non-char-boundary. -/
def matchesLineBasedUrc (line : Bytes) : Option Bool :=
  if line == readyNeedle then some true
  else
    match strSlice line 0 3 with
    | none => none
    | some p3 =>
      if p3 == atPlusNeedle then some true
      else
        match strSlice line 0 4 with
        | none => none
        | some p4 =>
          if p4 == ipdNeedle then some true
          else if line == sendOkNeedle then some true
          else if line == sendFailNeedle then some true
          else if p4 == wifiNeedle then some true
          else
            match strSlice line 1 line.length with
            | none => none
            | some tl =>
              if tl == connectNeedle then some true
              else if tl == closedNeedle then some true
              else if line == alreadyConnectedNeedle then some true
              else matchesReceiveConfirmation line

/-- Loop body of `LineBasedMatcher::handle` (src/urc.rs lines 187-218):
walks the CRLF-separated lines, skipping leading empty lines (each adds 2 to
both offsets), and stops at the first non-empty line. -/
def lineLoop (buffer : Bytes) : List Bytes → Nat → Nat → ParseOutcome
  | [], _, _ => .noMatch
  | line :: rest, start, stop =>
    if line.isEmpty then lineLoop buffer rest (start + 2) (stop + 2)
    else if line.length < 4 then .noMatch
    else
      let stop' := stop + line.length + 2
      if buffer.length < stop' then .noMatch
      else
        match matchesLineBasedUrc line with
        | none => .panic
        | some true =>
          match byteSlice buffer start stop' with
          | none => .panic
          | some frame => .ok frame stop'
        | some false => .noMatch

/-- `LineBasedMatcher::handle`: UTF-8 decode (failure is `NoMatch`), then the
line loop. -/
def lineHandle (buffer : Bytes) : ParseOutcome :=
  if utf8Valid buffer then lineLoop buffer (splitCRLF buffer) 0 0
  else .noMatch

/-- `BootMessageParser::is_boot_line` (src/urc.rs lines 338-344). -/
def isBootLine (line : Bytes) : Bool :=
  utf8Valid line && containsSub rstCauseNeedle line

/-- Loop of `BootMessageParser::handle` (src/urc.rs lines 317-335) over the
`\n`-separated lines. -/
def bootLoop : List Bytes → Bool → Nat → ParseOutcome
  | [], _, _ => .noMatch
  | line :: rest, isBootSeq, size =>
    let size' := size + line.length + 1
    if !isBootSeq && isBootLine line then bootLoop rest true size'
    else if isBootSeq && line == readyCR then .ok readyCRLF size'
    else bootLoop rest isBootSeq size'

/-- `BootMessageParser::handle`. -/
def bootHandle (buffer : Bytes) : ParseOutcome :=
  bootLoop (splitOnByte 10 buffer) false 0

/-- First-pass `Parser::parse` for `URCMessages` (src/urc.rs lines 124-138):
buffers shorter than 6 bytes are `Incomplete`; the size-based matcher runs
first, then the line-based matcher, then the boot-message matcher. -/
def parserParse (buf : Bytes) : ParseOutcome :=
  if buf.length < 6 then .incomplete
  else
    match sizeMatches buf with
    | some start => sizeHandle buf start
    | none =>
      match lineHandle buf with
      | .ok frame n => .ok frame n
      | .panic => .panic
      | _ => bootHandle buf

/-! ## Second-pass URC parser: `impl AtatUrc for URCMessages` (src/urc.rs). -/

/-- Typed URC events, `URCMessages<RX_SIZE>` (src/urc.rs lines 11-41). -/
inductive Urc
  | ready
  | wifiConnected
  | wifiDisconnected
  | receivedIP
  | socketConnected (linkId : Nat)
  | socketClosed (linkId : Nat)
  | receivedBytes (count : Nat)
  | alreadyConnected
  | sendConfirmation
  | sendFail
  | dataAvailable (linkId : Nat) (length : Nat)
  | data (payload : Bytes)
  | echo
  | unknown
deriving DecidableEq, Repr

/-- Result of the second-pass `AtatUrc::parse`: a typed event (`Some`),
no event (`None`), or a Rust panic. -/
inductive UrcParse
  | event (u : Urc)
  | noEvent
  | panic
deriving DecidableEq, Repr

/-- `URCMessages::parse_link_id` (src/urc.rs lines 86-95): only the ASCII
digits 0-4 are accepted. -/
def parseLinkId (b : Nat) : Option Nat :=
  if b = 48 then some 0
  else if b = 49 then some 1
  else if b = 50 then some 2
  else if b = 51 then some 3
  else if b = 52 then some 4
  else none

/-- `URCMessages::parse_receive_byte_count` (src/urc.rs lines 98-109); outer
`none` models the byte-slice panic, inner `none` the parse failure. -/
def parseReceiveByteCount (resp : Bytes) : Option (Option Nat) :=
  match byteSlice resp 5 (resp.length - 8) with
  | none => none
  | some byteCount =>
    if utf8Valid byteCount then
      match parseUsize byteCount with
      | some n => some (some n)
      | none => some none
    else some none

/-- `URCMessages::parse_data_available` (src/urc.rs lines 112-120): strips
the trailing CRLF, splits on commas, takes the second part as link id and the
last remaining part as length. Outer `none` models a panic. -/
def parseDataAvailable (d : Bytes) : Option (Option Urc) :=
  match byteSlice d 0 (d.length - 2) with
  | none => none
  | some s =>
    if utf8Valid s then
      let parts := splitOnByte 44 s
      match parts.get? 1 with
      | none => some none
      | some linkStr =>
        match parseUsize linkStr with
        | none => some none
        | some linkId =>
          match (parts.drop 2).getLast? with
          | none => some none
          | some lenStr =>
            match parseUsize lenStr with
            | none => some none
            | some len => some (some (.dataAvailable linkId len))
    else some none

/-- Second-pass `AtatUrc::parse` (src/urc.rs lines 46-81). `rxSize` is the
`RX_SIZE` const generic bounding the heapless payload vector of `Data`. -/
def urcParse (rxSize : Nat) (resp : Bytes) : UrcParse :=
  match byteSlice resp 0 3 with
  | none => .panic
  | some p3 =>
    if p3 == atPlusNeedle then .event .echo
    else
      match byteSlice resp 0 4 with
      | none => .panic
      | some p4 =>
        if p4 == ipdNeedle then
          match parseDataAvailable resp with
          | none => .panic
          | some none => .noEvent
          | some (some u) => .event u
        else if 15 < resp.length && resp.take 13 == cipRecvDataComma then
          match dataResponseParse resp with
          | .panic => .panic
          | .incomplete => .noEvent
          | .noMatch => .noEvent
          | .msg _ _ payload =>
            if payload.length ≤ rxSize then .event (.data payload) else .noEvent
        else
          match byteSlice resp 1 (resp.length - 2) with
          | none => .panic
          | some mid =>
            if mid == connectNeedle then
              match resp.head? with
              | none => .panic
              | some b =>
                match parseLinkId b with
                | some id => .event (.socketConnected id)
                | none => .noEvent
            else if mid == closedNeedle then
              match resp.head? with
              | none => .panic
              | some b =>
                match parseLinkId b with
                | some id => .event (.socketClosed id)
                | none => .noEvent
            else if p4 == recvNeedle then
              match parseReceiveByteCount resp with
              | none => .panic
              | some none => .noEvent
              | some (some n) => .event (.receivedBytes n)
            else
              match byteSlice resp 0 (resp.length - 2) with
              | none => .panic
              | some body =>
                if body == readyNeedle then .event .ready
                else if body == sendOkNeedle then .event .sendConfirmation
                else if body == sendFailNeedle then .event .sendFail
                else if body == wifiConnectedNeedle then .event .wifiConnected
                else if body == wifiDisconnectNeedle then .event .wifiDisconnected
                else if body == wifiGotIpNeedle then .event .receivedIP
                else if body == alreadyConnectedNeedle then .event .alreadyConnected
                else .event .unknown

/-! ## Session state (src/wifi.rs `Session`, src/stack.rs `SocketState`). -/

/-- `ConnectionState` (src/stack.rs lines 72-81); `Open` is rendered as
`opened` because `open` is a Lean keyword. -/
inductive ConnectionState
  | closed
  | opened
  | connected
  | closing
deriving DecidableEq, Repr

/-- `SocketState` (src/stack.rs lines 62-68). -/
structure SocketState where
  state : ConnectionState := .closed
  dataAvailable : Nat := 0
deriving DecidableEq, Repr

/-- `Session` (src/wifi.rs lines 115-147). The five socket slots of the
Rust array `[SocketState; 5]` are a list (all operations preserve its
length); defaults mirror `Session::default()`. -/
structure Session where
  joined : Bool := false
  ipAssigned : Bool := false
  ready : Bool := false
  multiConnectionsEnabled : Bool := false
  passiveModeEnabled : Bool := false
  sockets : List SocketState := [{}, {}, {}, {}, {}]
  recvByteCount : Option Nat := none
  sendConfirmed : Option Bool := none
  alreadyConnected : Bool := false
  data : Option Bytes := none
deriving DecidableEq, Repr

/-- Write `sockets[id].state = cs`; `none` models the index panic. -/
def writeState (s : Session) (id : Nat) (cs : ConnectionState) : Option Session :=
  match s.sockets.get? id with
  | some st => some { s with sockets := s.sockets.set id { st with state := cs } }
  | none => none

/-- Write `sockets[id].data_available = n`; `none` models the index panic. -/
def writeDataAvailable (s : Session) (id : Nat) (n : Nat) : Option Session :=
  match s.sockets.get? id with
  | some st => some { s with sockets := s.sockets.set id { st with dataAvailable := n } }
  | none => none

/-- Read `sockets[id].state`; `none` models the index panic. -/
def readState (s : Session) (id : Nat) : Option ConnectionState :=
  (s.sockets.get? id).map (·.state)

/-- `Session::handle_urc` (src/wifi.rs lines 151-174). `none` models the
out-of-bounds index panic for `SocketConnected`/`SocketClosed`; the
`DataAvailable` arm is guarded by `link_id < self.sockets.len()` in the
source and silently ignores out-of-range ids. -/
def handleUrc (s : Session) : Urc → Option Session
  | .wifiDisconnected => some { s with joined := false, ipAssigned := false }
  | .receivedIP => some { s with ipAssigned := true }
  | .wifiConnected => some { s with joined := true }
  | .ready => some { s with ready := true }
  | .socketConnected id => writeState s id .connected
  | .socketClosed id => writeState s id .closing
  | .alreadyConnected => some { s with alreadyConnected := true }
  | .receivedBytes n => some { s with recvByteCount := some n }
  | .sendConfirmation => some { s with sendConfirmed := some true }
  | .sendFail => some { s with sendConfirmed := some false }
  | .dataAvailable id len =>
    if id < s.sockets.length then writeDataAvailable s id len
    else some s
  | .data payload => some { s with data := some payload }
  | .unknown => some s
  | .echo => some s

/-- `Adapter::process_urc_messages` (src/wifi.rs lines 345-349): applies the
pending URC events in arrival order; `none` models a panic while handling
one of them. -/
def processUrcs (s : Session) : List Urc → Option Session
  | [] => some s
  | u :: rest =>
    match handleUrc s u with
    | none => none
    | some s' => processUrcs s' rest

/-! ## Error taxonomy (src/stack.rs, src/wifi.rs) and mocked environment. -/

deriving instance DecidableEq for Except

/-- The `atat::Error` variants the driver distinguishes. -/
inductive AtError
  | error
  | timeout
  | parse
  | invalidResponse
deriving DecidableEq, Repr

/-- `stack::Error` (src/stack.rs lines 91-141). -/
inductive StackError
  | enablingMultiConnectionsFailed (e : AtError)
  | enablingPassiveSocketModeFailed (e : AtError)
  | connectError (e : AtError)
  | transmissionStartFailed (e : AtError)
  | sendFailed (e : AtError)
  | receiveFailed (e : AtError)
  | closeError (e : AtError)
  | partialSend
  | unconfirmedSocketState
  | noSocketAvailable
  | alreadyConnected
  | socketUnconnected
  | closingSocket
  | receiveOverflow
  | unexpectedWouldBlock
  | timerError
deriving DecidableEq, Repr

/-- `wifi::JoinError` (src/wifi.rs lines 179-198). -/
inductive JoinError
  | configurationStoreError (e : AtError)
  | modeError (e : AtError)
  | connectError (e : AtError)
  | invalidSSDLength
  | invalidPasswordLength
  | unexpectedWouldBlock
deriving DecidableEq, Repr

/-- `wifi::CommandError` (src/wifi.rs lines 216-229). -/
inductive CommandError
  | commandFailed (e : AtError)
  | readyTimeout
  | timerError
  | unexpectedWouldBlock
deriving DecidableEq, Repr

/-- `wifi::JoinState` (src/wifi.rs lines 233-239). -/
structure JoinState where
  connected : Bool
  ipAssigned : Bool
deriving DecidableEq, Repr

/-- `nb::Result`: success, retryable `WouldBlock`, or an error. -/
inductive NbResult (α : Type) (ε : Type)
  | ok (a : α)
  | wouldBlock
  | err (e : ε)
deriving DecidableEq, Repr

/-- One poll of the `fugit` timer inside a waiting loop:
`Ok` (fired), `Err(WouldBlock)` (still running) or `Err(Other)`. -/
inductive TimerWait
  | expired
  | wouldBlock
  | failed
deriving DecidableEq, Repr

/-- AT commands the adapter can put on the wire (src/commands.rs), recorded
to observe which commands an operation issued. -/
inductive Command
  | wifiMode (mode : Nat)
  | accessPointConnect (ssid : Bytes) (key : Bytes)
  | autoConnect (mode : Nat)
  | restartCmd
  | setMultipleConnections (mode : Nat)
  | setSocketReceivingMode (mode : Nat)
  | connectStart (linkId : Nat)
  | transmissionPrepare (linkId : Nat) (length : Nat)
  | transmission (payload : Bytes)
  | receiveData (linkId : Nat) (length : Nat)
  | closeSocket (linkId : Nat)
deriving DecidableEq, Repr

/-- Outcome of a blocking adapter loop driven by a finite environment trace:
the loop returned, the trace was exhausted with the loop still waiting, or
the code panicked. -/
inductive RunResult (ε : Type)
  | done (r : Except ε Unit) (s : Session)
  | pending (s : Session)
  | panicked
deriving DecidableEq, Repr

/-! ## TcpClientStack operations (src/stack.rs). -/

/-- `TcpClientStack::close` (src/stack.rs lines 279-305). Environment:
`urcs1` are the URCs pending at entry, `resp` the mocked reply to
`AT+CIPCLOSE`, `urcs2` the URCs pending after it; `none` models a panic. -/
def close (s0 : Session) (id : Nat) (urcs1 : List Urc) (resp : Except AtError Unit)
    (urcs2 : List Urc) : Option (Except StackError Unit × Session) :=
  match processUrcs s0 urcs1 with
  | none => none
  | some s =>
    match readState s id with
    | none => none
    | some st =>
      if st = .closed then some (.ok (), s)
      else if st = .closing ∨ st = .opened then
        match writeState s id .closed with
        | none => none
        | some s' => some (.ok (), s')
      else
        let result : Except StackError Unit :=
          match resp with
          | .ok _ => .ok ()
          | .error e => .error (.closeError e)
        match processUrcs s urcs2 with
        | none => none
        | some s2 =>
          match readState s2 id with
          | none => none
          | some st2 =>
            let result :=
              if st2 ≠ .closing ∧ result = .ok () then .error .unconfirmedSocketState
              else result
            match writeState s2 id .closed with
            | none => none
            | some s3 => some (result, s3)

/-- `TcpClientStack::connect` (src/stack.rs lines 191-221). Environment:
`urcs1` pending at entry, `passiveResp` the mocked reply to
`AT+CIPRECVMODE=1` (used only if the passive latch is not yet set),
`connectResp` the mocked reply to `AT+CIPSTART`, `urcs2` pending after it. -/
def connect (s0 : Session) (id : Nat) (urcs1 : List Urc)
    (passiveResp : Except AtError Unit) (connectResp : Except AtError Unit)
    (urcs2 : List Urc) : Option (NbResult Unit StackError × Session) :=
  match processUrcs s0 urcs1 with
  | none => none
  | some s =>
    match readState s id with
    | none => none
    | some st =>
      if st = .connected then some (.err .alreadyConnected, s)
      else
        -- enable_passive_receiving_mode (src/stack.rs lines 368-376)
        let passive : Except StackError Session :=
          if s.passiveModeEnabled then .ok s
          else
            match passiveResp with
            | .ok _ => .ok { s with passiveModeEnabled := true }
            | .error e => .error (.enablingPassiveSocketModeFailed e)
        match passive with
        | .error e => some (.err e, s)
        | .ok s1 =>
          let s2 := { s1 with alreadyConnected := false }
          let result : Except StackError Unit :=
            match connectResp with
            | .ok _ => .ok ()
            | .error e => .error (.connectError e)
          match processUrcs s2 urcs2 with
          | none => none
          | some s3 =>
            if s3.alreadyConnected then
              match writeState s3 id .connected with
              | none => none
              | some s4 => some (.ok (), s4)
            else
              match result with
              | .error e => some (.err e, s3)
              | .ok _ =>
                match readState s3 id with
                | none => none
                | some st3 =>
                  if st3 ≠ .connected then some (.err .unconfirmedSocketState, s3)
                  else
                    match writeDataAvailable s3 id 0 with
                    | none => none
                    | some s5 => some (.ok (), s5)

/-- `Session::is_received_byte_count_incorrect` (src/stack.rs lines 425-427). -/
def isRecvByteCountIncorrect (s : Session) (actual : Nat) : Bool :=
  match s.recvByteCount with
  | some n => decide (n ≠ actual)
  | none => false

/-- Waiting loop of `Adapter::send_chunk` (src/stack.rs lines 319-349): each
iteration drains a batch of URCs and, when the confirmation is still unset,
polls the timer. -/
def sendChunkLoop (len : Nat) : Session → List (List Urc × TimerWait) → RunResult StackError
  | s, [] => .pending s
  | s, (urcs, w) :: rest =>
    match processUrcs s urcs with
    | none => .panicked
    | some s1 =>
      match s1.sendConfirmed with
      | some success =>
        if !success then .done (.error (.sendFailed .error)) s1
        else if isRecvByteCountIncorrect s1 len then .done (.error .partialSend) s1
        else .done (.ok ()) s1
      | none =>
        match w with
        | .expired => .done (.error (.sendFailed .timeout)) s1
        | .failed => .done (.error .timerError) s1
        | .wouldBlock => sendChunkLoop len s1 rest

/-- `Adapter::send_chunk` (src/stack.rs lines 312-352): clears the send
confirmation and byte count, sends the raw payload (`cmdResp` is the mocked
transmission result), starts the timer (`timerStart`), then loops. -/
def sendChunk (s : Session) (len : Nat) (cmdResp : Except AtError Unit)
    (timerStart : Except Unit Unit) (trace : List (List Urc × TimerWait)) :
    RunResult StackError :=
  let s0 := { s with sendConfirmed := none, recvByteCount := none }
  match cmdResp with
  | .error e => .done (.error (.sendFailed e)) s0
  | .ok _ =>
    match timerStart with
    | .error _ => .done (.error .timerError) s0
    | .ok _ => sendChunkLoop len s0 trace

/-! ## WifiAdapter operations (src/wifi.rs). -/

/-- Waiting loop of `WifiAdapter::restart` (src/wifi.rs lines 302-313):
while `ready` is unset, poll the timer (fired ⇒ `ReadyTimeout`, other error
⇒ `TimerError`) and then drain a batch of URCs. -/
def restartLoop : Session → List (TimerWait × List Urc) → RunResult CommandError
  | s, [] => if s.ready then .done (.ok ()) s else .pending s
  | s, (w, urcs) :: rest =>
    if s.ready then .done (.ok ()) s
    else
      match w with
      | .expired => .done (.error .readyTimeout) s
      | .failed => .done (.error .timerError) s
      | .wouldBlock =>
        match processUrcs s urcs with
        | none => .panicked
        | some s' => restartLoop s' rest

/-- `WifiAdapter::restart` (src/wifi.rs lines 295-316): clear `ready`, send
`AT+RST` (`resp`), reset the whole session to defaults, start the 5 s timer
(`timerStart`), then loop until `ready` or timeout. -/
def restart (s : Session) (resp : Except AtError Unit) (timerStart : Except Unit Unit)
    (trace : List (TimerWait × List Urc)) : RunResult CommandError :=
  let s1 := { s with ready := false }
  match resp with
  | .error e => .done (.error (.commandFailed e)) s1
  | .ok _ =>
    let s2 : Session := {}
    match timerStart with
    | .error _ => .done (.error .timerError) s2
    | .ok _ => restartLoop s2 trace

/-- `WifiAdapter::join` (src/wifi.rs lines 261-270) together with
`set_station_mode` (lines 352-357) and `connect_access_point` (lines
360-373). Returns the result, the final session and the list of AT commands
that were put on the wire, in order. -/
def join (s : Session) (ssid key : Bytes) (modeResp : Except AtError Unit)
    (apResp : Except AtError Unit) (urcs : List Urc) :
    Option (Except JoinError JoinState × Session × List Command) :=
  -- set_station_mode: sends WifiModeCommand::station_mode() (mode = 1)
  match modeResp with
  | .error e => some (.error (.modeError e), s, [.wifiMode 1])
  | .ok _ =>
    -- connect_access_point: validates lengths, then sends AT+CWJAP
    if ssid.length > 32 then
      some (.error .invalidSSDLength, s, [.wifiMode 1])
    else if key.length > 63 then
      some (.error .invalidPasswordLength, s, [.wifiMode 1])
    else
      match apResp with
      | .error e =>
        some (.error (.connectError e), s, [.wifiMode 1, .accessPointConnect ssid key])
      | .ok _ =>
        match processUrcs s urcs with
        | none => none
        | some s' =>
          some (.ok { connected := s'.joined, ipAssigned := s'.ipAssigned }, s',
            [.wifiMode 1, .accessPointConnect ssid key])

/-! ## Receive path (src/stack.rs `TcpClientStack::receive` and `Buffer`). -/

/-- Outcome of `receive`: the `nb::Result` value, final session, final
contents of the caller's buffer and the `AT+CIPRECVDATA` commands issued. -/
inductive ReceiveOutcome
  | done (r : NbResult Nat StackError) (s : Session) (buf : Bytes) (cmds : List Command)
  | pending
  | panicked
deriving DecidableEq, Repr

/-- `Buffer::is_full` (src/stack.rs lines 493-499): an empty buffer counts
as full, otherwise the fill position must have reached the length. -/
def bufferIsFull (buf : Bytes) (pos : Nat) : Bool :=
  if buf.isEmpty then true else decide (pos ≥ buf.length)

/-- `Buffer::get_next_length` (src/stack.rs lines 469-477). -/
def bufferNextLength (chunk : Nat) (buf : Bytes) (pos : Nat) : Nat :=
  if buf.length - pos > chunk then chunk else buf.length - pos

/-- Loop of `TcpClientStack::receive` (src/stack.rs lines 257-269): while
data is available and the buffer is not full, issue `AT+CIPRECVDATA`
(each iteration consumes one `(resp, urcs)` pair of the environment trace),
consume `session.data`, reduce the available-data mark and append. -/
def receiveLoop (chunk : Nat) (id : Nat) :
    Session → Bytes → Nat → List Command → List (Except AtError Unit × List Urc) →
    ReceiveOutcome
  | s, buf, pos, cmds, trace =>
    match (s.sockets.get? id).map (·.dataAvailable) with
    | none => .panicked
    | some avail =>
      if avail > 0 ∧ ¬bufferIsFull buf pos then
        match trace with
        | [] => .pending
        | (resp, urcs) :: rest =>
          let req := bufferNextLength chunk buf pos
          let cmds' := cmds ++ [.receiveData id req]
          match resp with
          | .error e => .done (.err (.receiveFailed e)) s buf cmds'
          | .ok _ =>
            match processUrcs s urcs with
            | none => .panicked
            | some s1 =>
              match s1.data with
              | none => .done (.err (.receiveFailed .invalidResponse)) s1 buf cmds'
              | some d =>
                let s2 := { s1 with data := none }
                -- reduce_available_data (src/stack.rs lines 414-421), saturating
                match writeDataAvailable s2 id
                    ((s2.sockets.get? id).elim 0 (fun st =>
                      if st.dataAvailable < d.length then 0
                      else st.dataAvailable - d.length)) with
                | none => .panicked
                | some s3 =>
                  -- Buffer::append (src/stack.rs lines 480-490)
                  if d.length > buf.length - pos then
                    .done (.err .receiveOverflow) s3 buf cmds'
                  else
                    receiveLoop chunk id s3
                      (buf.take pos ++ d ++ buf.drop (pos + d.length))
                      (pos + d.length) cmds' rest
      else .done (.ok pos) s buf cmds

/-- `TcpClientStack::receive` (src/stack.rs lines 248-272): drain pending
URCs, signal `WouldBlock` when no data is buffered for the socket, else run
the chunked read loop over the caller's buffer `buf`. -/
def receive (chunk : Nat) (s0 : Session) (id : Nat) (buf : Bytes) (urcs0 : List Urc)
    (trace : List (Except AtError Unit × List Urc)) : ReceiveOutcome :=
  match processUrcs s0 urcs0 with
  | none => .panicked
  | some s =>
    match (s.sockets.get? id).map (·.dataAvailable) with
    | none => .panicked
    | some avail =>
      if avail > 0 then receiveLoop chunk id s buf 0 [] trace
      else .done .wouldBlock s buf []

/-! ## Basic lemmas about the session embedding. -/

theorem list_get?_some_lt {α : Type} {ys : List α} {k : Nat} {v : α}
    (h : ys.get? k = some v) : k < ys.length := by
  by_contra hk
  rw [List.get?_eq_none.mpr (Nat.le_of_not_lt hk)] at h
  exact Option.noConfusion h

theorem list_get?_exists {α : Type} {l : List α} {i : Nat} (h : i < l.length) :
    ∃ x, l.get? i = some x := by
  cases hg : l.get? i with
  | some x => exact ⟨x, rfl⟩
  | none => exact absurd (List.get?_eq_none.mp hg) (Nat.not_le_of_lt h)

/-- A successful `writeState` leaves the written connection state readable. -/
theorem writeState_readState {s s' : Session} {id : Nat} {cs : ConnectionState}
    (h : writeState s id cs = some s') : readState s' id = some cs := by
  unfold writeState at h
  split at h
  next st hg =>
    cases h
    unfold readState
    rw [List.get?_set_eq_of_lt _ (list_get?_some_lt hg)]
    rfl
  next => exact Option.noConfusion h

/-- `writeState` only rewrites the socket list. -/
theorem writeState_fields {s s' : Session} {id : Nat} {cs : ConnectionState}
    (h : writeState s id cs = some s') :
    s'.sockets.length = s.sockets.length ∧ s'.joined = s.joined ∧
    s'.ipAssigned = s.ipAssigned ∧ s'.ready = s.ready ∧
    s'.multiConnectionsEnabled = s.multiConnectionsEnabled ∧
    s'.passiveModeEnabled = s.passiveModeEnabled ∧
    s'.recvByteCount = s.recvByteCount ∧ s'.sendConfirmed = s.sendConfirmed ∧
    s'.alreadyConnected = s.alreadyConnected ∧ s'.data = s.data := by
  unfold writeState at h
  split at h
  next st hg => cases h; simp [List.length_set]
  next => exact Option.noConfusion h

/-- `writeDataAvailable` only rewrites the socket list. -/
theorem writeDataAvailable_fields {s s' : Session} {id n : Nat}
    (h : writeDataAvailable s id n = some s') :
    s'.sockets.length = s.sockets.length ∧ s'.joined = s.joined ∧
    s'.ipAssigned = s.ipAssigned ∧ s'.ready = s.ready ∧
    s'.multiConnectionsEnabled = s.multiConnectionsEnabled ∧
    s'.passiveModeEnabled = s.passiveModeEnabled ∧
    s'.recvByteCount = s.recvByteCount ∧ s'.sendConfirmed = s.sendConfirmed ∧
    s'.alreadyConnected = s.alreadyConnected ∧ s'.data = s.data := by
  unfold writeDataAvailable at h
  split at h
  next st hg => cases h; simp [List.length_set]
  next => exact Option.noConfusion h

/-- A single URC event never changes the number of socket slots, nor the
multi-connection / passive-mode latches. -/
theorem handleUrc_invariants {s s' : Session} {u : Urc} (h : handleUrc s u = some s') :
    s'.sockets.length = s.sockets.length ∧
    s'.multiConnectionsEnabled = s.multiConnectionsEnabled ∧
    s'.passiveModeEnabled = s.passiveModeEnabled := by
  cases u <;> simp only [handleUrc] at h
  case socketConnected id =>
    exact ⟨(writeState_fields h).1, (writeState_fields h).2.2.2.2.1,
      (writeState_fields h).2.2.2.2.2.1⟩
  case socketClosed id =>
    exact ⟨(writeState_fields h).1, (writeState_fields h).2.2.2.2.1,
      (writeState_fields h).2.2.2.2.2.1⟩
  case dataAvailable id len =>
    split at h
    · exact ⟨(writeDataAvailable_fields h).1, (writeDataAvailable_fields h).2.2.2.2.1,
        (writeDataAvailable_fields h).2.2.2.2.2.1⟩
    · cases h; exact ⟨rfl, rfl, rfl⟩
  all_goals (cases h; exact ⟨rfl, rfl, rfl⟩)

/-- Draining URCs never changes the number of socket slots, nor the
multi-connection / passive-mode latches. -/
theorem processUrcs_invariants {urcs : List Urc} :
    ∀ {s s' : Session}, processUrcs s urcs = some s' →
    s'.sockets.length = s.sockets.length ∧
    s'.multiConnectionsEnabled = s.multiConnectionsEnabled ∧
    s'.passiveModeEnabled = s.passiveModeEnabled := by
  induction urcs with
  | nil => intro s s' h; cases h; exact ⟨rfl, rfl, rfl⟩
  | cons u rest ih =>
    intro s s' h
    unfold processUrcs at h
    split at h
    next => exact Option.noConfusion h
    next s1 h1 =>
      obtain ⟨e1, e2, e3⟩ := handleUrc_invariants h1
      obtain ⟨f1, f2, f3⟩ := ih h
      exact ⟨f1.trans e1, f2.trans e2, f3.trans e3⟩

/-! ## Concrete inputs used by the parser claims. -/

/-- The legacy comma-delimited receive frame +CIPRECVDATA,5:abcde . -/
def cipCommaFrame : Bytes :=
  cipRecvDataComma ++ [53, 58, 97, 98, 99, 100, 101]

/-- The spec-conforming colon-delimited receive frame +CIPRECVDATA:5,abcde . -/
def cipColonFrame : Bytes :=
  [43, 67, 73, 80, 82, 69, 67, 86, 68, 65, 84, 65, 58, 53, 44, 97, 98, 99, 100, 101]

/-- Two copies of the two-byte UTF-8 character U+00E9 followed by CRLF:
a valid UTF-8 buffer whose first line has byte length 4 but no char boundary
at byte index 3. -/
def twoByteCharLine : Bytes := [195, 169, 195, 169, 13, 10]

/-- Claim C1: the URC parser is claimed to accept both length-prefixed
receive framings, the current form +CIPRECVDATA:len,bytes and the legacy
form +CIPRECVDATA,len:bytes. The code accepts only the legacy comma form:
on the colon form the first pass returns NoMatch and the second pass yields
Unknown instead of a Data event, contradicting the claim (and the repo's own
tests test_first_parse_data_fully_received and test_second_parse_data). -/
theorem c1_colon_framing_rejected :
    parserParse cipCommaFrame = .ok cipCommaFrame 20 ∧
    urcParse 32 cipCommaFrame = .event (.data [97, 98, 99, 100, 101]) ∧
    parserParse cipColonFrame = .noMatch ∧
    urcParse 32 cipColonFrame = .event .unknown := by
  refine ⟨?_, ?_, ?_, ?_⟩ <;> decide

/-- Claim C2: the first-pass parser is claimed never to panic. On the valid
UTF-8 buffer `twoByteCharLine` the line matcher slices the first line at byte
index 3, which is not a char boundary, so `Parser::parse` panics instead of
returning NoMatch. -/
theorem c2_line_matcher_panics :
    utf8Valid twoByteCharLine = true ∧
    parserParse twoByteCharLine = .panic := by
  refine ⟨?_, ?_⟩ <;> decide

/-- Claim C4: for every socket in every state, whenever close() returns —
with Ok or with an error (CloseError, UnconfirmedSocketState) — the socket's
slot state is Closed afterwards, so the slot can be reallocated. -/
theorem c4_close_always_leaves_closed (s0 : Session) (id : Nat) (urcs1 : List Urc)
    (resp : Except AtError Unit) (urcs2 : List Urc)
    (r : Except StackError Unit) (s' : Session)
    (h : close s0 id urcs1 resp urcs2 = some (r, s')) :
    readState s' id = some .closed := by
  unfold close at h
  repeat' split at h
  all_goals try exact Option.noConfusion h
  all_goals cases h
  all_goals try (apply writeState_readState; assumption)
  all_goals simp_all

/-- Witness for C4: closing a connected socket whose close command is
answered OK but never confirmed by a URC returns UnconfirmedSocketState and
still leaves slot 0 Closed. -/
theorem c4_close_always_leaves_closed_witness :
    readState { sockets := [{}, {}, {}, {}, {}], passiveModeEnabled := true } 0
      = some ConnectionState.closed :=
  c4_close_always_leaves_closed
    { sockets := [{ state := .connected }, {}, {}, {}, {}], passiveModeEnabled := true }
    0 [] (.ok ()) [] (.error .unconfirmedSocketState) _ (by decide)

/-- Claim C10: for every socket with data available, receiving into a
zero-length buffer returns Ok(0) without issuing any `AT+CIPRECVDATA`
command and without touching the session (in particular the socket's
`data_available` counter): the empty buffer counts as already full. -/
theorem c10_receive_empty_buffer (chunk : Nat) (s0 : Session) (id : Nat)
    (urcs0 : List Urc) (trace : List (Except AtError Unit × List Urc))
    (s : Session) (avail : Nat)
    (h1 : processUrcs s0 urcs0 = some s)
    (h2 : (s.sockets.get? id).map (·.dataAvailable) = some avail)
    (h3 : 0 < avail) :
    receive chunk s0 id [] urcs0 trace = .done (.ok 0) s [] [] := by
  unfold receive
  rw [h1]
  simp only [h2]
  rw [if_pos h3]
  unfold receiveLoop
  simp only [h2]
  rw [if_neg]
  intro hc
  exact absurd rfl hc.2

/-- Witness for C10: socket 0 has 5 buffered bytes; receiving into an empty
buffer returns Ok(0) and leaves the session untouched. -/
theorem c10_receive_empty_buffer_witness :
    receive 16 { sockets := [{ state := .connected, dataAvailable := 5 }, {}, {}, {}, {}] }
      0 [] [] [] =
      .done (.ok 0) { sockets := [{ state := .connected, dataAvailable := 5 }, {}, {}, {}, {}] }
        [] [] :=
  c10_receive_empty_buffer 16
    { sockets := [{ state := .connected, dataAvailable := 5 }, {}, {}, {}, {}] }
    0 [] [] _ 5 (by decide) (by decide) (by decide)

/-- Invariant of the `send_chunk` waiting loop: a successful exit implies the
confirmation is Ok and the reported byte count is unset or equal to the chunk
length; an error exit is a SendFailed, PartialSend or TimerError, and
PartialSend only fires when the confirmation is Ok and the byte count is
incorrect. -/
theorem sendChunkLoop_spec (len : Nat) (trace : List (List Urc × TimerWait)) :
    ∀ s : Session,
      (∀ s', sendChunkLoop len s trace = .done (.ok ()) s' →
        s'.sendConfirmed = some true ∧
        (s'.recvByteCount = none ∨ s'.recvByteCount = some len)) ∧
      (∀ e s', sendChunkLoop len s trace = .done (.error e) s' →
        ((∃ ae, e = .sendFailed ae) ∨ e = .partialSend ∨ e = .timerError) ∧
        (e = .partialSend →
          s'.sendConfirmed = some true ∧ isRecvByteCountIncorrect s' len = true)) := by
  induction trace with
  | nil =>
    intro s
    exact ⟨fun s' h => by simp [sendChunkLoop] at h,
           fun e s' h => by simp [sendChunkLoop] at h⟩
  | cons p rest ih =>
    intro s
    obtain ⟨urcs, w⟩ := p
    constructor
    · intro s' h
      unfold sendChunkLoop at h
      split at h
      next => exact RunResult.noConfusion h
      next s1 h1 =>
        split at h
        next success hconf =>
          split at h
          next => simp at h
          next hsucc =>
            split at h
            next => simp at h
            next hinc =>
              cases h
              have hs : success = true := by
                cases success
                · simp at hsucc
                · rfl
              refine ⟨by rw [hconf, hs], ?_⟩
              unfold isRecvByteCountIncorrect at hinc
              cases hrb : s'.recvByteCount with
              | none => exact Or.inl rfl
              | some n =>
                rw [hrb] at hinc
                simp at hinc
                exact Or.inr (by rw [hinc])
        next hconf =>
          split at h
          next => simp at h
          next => simp at h
          next => exact (ih s1).1 s' h
    · intro e s' h
      unfold sendChunkLoop at h
      split at h
      next => exact RunResult.noConfusion h
      next s1 h1 =>
        split at h
        next success hconf =>
          split at h
          next hsucc =>
            cases h
            exact ⟨Or.inl ⟨.error, rfl⟩, fun hp => StackError.noConfusion hp⟩
          next hsucc =>
            split at h
            next hinc =>
              cases h
              have hs : success = true := by
                cases success
                · simp at hsucc
                · rfl
              exact ⟨Or.inr (Or.inl rfl), fun _ => ⟨by rw [hconf, hs], hinc⟩⟩
            next => simp at h
        next hconf =>
          split at h
          next =>
            cases h
            exact ⟨Or.inl ⟨.timeout, rfl⟩, fun hp => StackError.noConfusion hp⟩
          next =>
            cases h
            exact ⟨Or.inr (Or.inr rfl), fun hp => StackError.noConfusion hp⟩
          next => exact (ih s1).2 e s' h

/-- Claim C3: for every chunk transmission, when `send_chunk` completes
without error the session's send confirmation is Ok and the recorded
received-byte count is unset or equal to the chunk length; otherwise an
error is returned — a SendFailed (SEND FAIL, timer expiry, or a failing
transmission command), PartialSend exactly when the confirmation is Ok but
the reported byte count differs from the chunk length, or a TimerError. -/
theorem c3_send_chunk_spec (s : Session) (len : Nat) (cmdResp : Except AtError Unit)
    (ts : Except Unit Unit) (trace : List (List Urc × TimerWait)) :
    (∀ s', sendChunk s len cmdResp ts trace = .done (.ok ()) s' →
      s'.sendConfirmed = some true ∧
      (s'.recvByteCount = none ∨ s'.recvByteCount = some len)) ∧
    (∀ e s', sendChunk s len cmdResp ts trace = .done (.error e) s' →
      ((∃ ae, e = .sendFailed ae) ∨ e = .partialSend ∨ e = .timerError) ∧
      (e = .partialSend →
        s'.sendConfirmed = some true ∧ isRecvByteCountIncorrect s' len = true)) := by
  unfold sendChunk
  cases cmdResp with
  | error e0 =>
    exact ⟨fun s' h => by simp at h,
           fun e s' h => by
             cases h
             exact ⟨Or.inl ⟨e0, rfl⟩, fun hp => StackError.noConfusion hp⟩⟩
  | ok _ =>
    cases ts with
    | error _ =>
      exact ⟨fun s' h => by simp at h,
             fun e s' h => by
               cases h
               exact ⟨Or.inr (Or.inr rfl), fun hp => StackError.noConfusion hp⟩⟩
    | ok _ => exact sendChunkLoop_spec len trace _

/-- Witness for C3: a chunk of length 9 acknowledged by URCs
Recv 9 bytes and SEND OK completes with the confirmation Ok and the
byte count equal to the chunk length. -/
theorem c3_send_chunk_spec_witness :
    ({ sendConfirmed := some true, recvByteCount := some 9 : Session }).sendConfirmed
        = some true ∧
      (({ sendConfirmed := some true, recvByteCount := some 9 : Session }).recvByteCount
          = none ∨
        ({ sendConfirmed := some true, recvByteCount := some 9 : Session }).recvByteCount
          = some 9) :=
  (c3_send_chunk_spec {} 9 (.ok ()) (.ok ())
    [([.receivedBytes 9, .sendConfirmation], .wouldBlock)]).1 _ (by decide)

/-- Claim C5: whenever connect() reaches its post-command URC drain with the
session's already_connected flag set — the initial state check passed (the
socket was not already Connected) and enabling passive mode succeeded —
connect() returns success and forces the socket's state to Connected, even
when the synchronous CIPSTART command reply `connectResp` was an error. -/
theorem c5_connect_already_connected (s0 : Session) (id : Nat) (urcs1 : List Urc)
    (passiveResp connectResp : Except AtError Unit) (urcs2 : List Urc)
    (s s3 : Session) (st : ConnectionState)
    (h1 : processUrcs s0 urcs1 = some s)
    (h2 : readState s id = some st)
    (h3 : st ≠ .connected)
    (h4 : s.passiveModeEnabled = true ∨ passiveResp = .ok ())
    (h5 : (if s.passiveModeEnabled then
            processUrcs { s with alreadyConnected := false } urcs2
          else
            processUrcs { s with passiveModeEnabled := true, alreadyConnected := false } urcs2)
          = some s3)
    (h6 : s3.alreadyConnected = true) :
    (connect s0 id urcs1 passiveResp connectResp urcs2).map Prod.fst = some (.ok ()) ∧
    (connect s0 id urcs1 passiveResp connectResp urcs2).map (fun p => readState p.2 id)
        = some (some .connected) := by
  have hlt0 : id < s.sockets.length := by
    unfold readState at h2
    cases hg0 : s.sockets.get? id with
    | none => rw [hg0] at h2; exact Option.noConfusion h2
    | some sock => exact list_get?_some_lt hg0
  have hlt : id < s3.sockets.length := by
    cases hpm : s.passiveModeEnabled with
    | true =>
      rw [if_pos (by rw [hpm])] at h5
      rw [(processUrcs_invariants h5).1]
      exact hlt0
    | false =>
      rw [if_neg (by rw [hpm]; exact Bool.false_ne_true)] at h5
      rw [(processUrcs_invariants h5).1]
      exact hlt0
  obtain ⟨sock3, hg3⟩ := list_get?_exists hlt
  have hw : writeState s3 id .connected
      = some { s3 with sockets := s3.sockets.set id { sock3 with state := .connected } } := by
    unfold writeState
    rw [hg3]
  have hconn : connect s0 id urcs1 passiveResp connectResp urcs2
      = some (.ok (),
          { s3 with sockets := s3.sockets.set id { sock3 with state := .connected } }) := by
    unfold connect
    rw [h1]
    simp only [h2]
    rw [if_neg h3]
    cases hpm : s.passiveModeEnabled with
    | true =>
      rw [if_pos (by rw [hpm])] at h5
      rw [hpm] at h5
      simp only [hpm, if_true]
      simp only [h5, h6, if_true, hw]
    | false =>
      rw [if_neg (by rw [hpm]; exact Bool.false_ne_true)] at h5
      have hpr : passiveResp = .ok () := by
        rcases h4 with h4 | h4
        · rw [hpm] at h4; exact absurd h4 Bool.false_ne_true
        · exact h4
      simp only [hpm, hpr]
      rw [if_neg Bool.false_ne_true]
      simp only [h5, h6, if_true, hw]
  refine ⟨by rw [hconn]; rfl, ?_⟩
  rw [hconn]
  show some (readState _ id) = some (some .connected)
  exact congrArg some (writeState_readState hw)

/-- Witness for C5: socket 0 is Open, the CIPSTART reply is an error, but the
drain delivers ALREADY CONNECTED: connect() returns Ok and slot 0 ends up
Connected. -/
theorem c5_connect_already_connected_witness :
    (connect { sockets := [{ state := .opened }, {}, {}, {}, {}] } 0 []
        (.ok ()) (.error .error) [.alreadyConnected]).map Prod.fst = some (.ok ()) ∧
    (connect { sockets := [{ state := .opened }, {}, {}, {}, {}] } 0 []
        (.ok ()) (.error .error) [.alreadyConnected]).map (fun p => readState p.2 0)
        = some (some .connected) :=
  c5_connect_already_connected
    { sockets := [{ state := .opened }, {}, {}, {}, {}] } 0 []
    (.ok ()) (.error .error) [.alreadyConnected]
    { sockets := [{ state := .opened }, {}, {}, {}, {}] }
    { sockets := [{ state := .opened }, {}, {}, {}, {}], passiveModeEnabled := true,
      alreadyConnected := true }
    .opened
    (by decide) (by decide) (by decide) (Or.inr rfl) (by decide) (by decide)

/-- Counterexample to claim C7 as stated: joining with a 33-character SSID
does return the invalid-length error before `AT+CWJAP` is attempted, but the
`AT+CWMODE=1` command has already been sent — the issued command list is not
empty, contradicting "without any AT command having been sent". -/
theorem c7_counterexample :
    join {} (List.replicate 33 97) [115] (.ok ()) (.ok ()) []
      = some (.error .invalidSSDLength, {}, [.wifiMode 1]) ∧
    ([Command.wifiMode 1] : List Command) ≠ [] := by
  refine ⟨?_, ?_⟩ <;> decide

/-- Claim C7 (amended): join() validates the credential lengths before
issuing the AccessPointConnect command: after a successful WifiMode(station)
command, every SSID longer than 32 bytes yields InvalidSSDLength and every
key longer than 63 bytes (with a valid SSID) yields InvalidPasswordLength,
in both cases without `AT+CWJAP` having been sent and with the session
untouched; the WifiMode command, however, is issued before the validation. -/
theorem c7_join_validates_before_ap (s : Session) (ssid key : Bytes)
    (apResp : Except AtError Unit) (urcs : List Urc) :
    (ssid.length > 32 →
      join s ssid key (.ok ()) apResp urcs
        = some (.error .invalidSSDLength, s, [.wifiMode 1])) ∧
    (ssid.length ≤ 32 → key.length > 63 →
      join s ssid key (.ok ()) apResp urcs
        = some (.error .invalidPasswordLength, s, [.wifiMode 1])) := by
  constructor
  · intro hs
    unfold join
    rw [if_pos hs]
  · intro hs hk
    unfold join
    rw [if_neg (by omega), if_pos hk]

/-- Witness for C7 (amended): a 33-byte SSID produces InvalidSSDLength with
only the WifiMode command on the wire. -/
theorem c7_join_validates_before_ap_witness :
    join {} (List.replicate 33 97) [115] (.ok ()) (.ok ()) []
      = some (.error .invalidSSDLength, {}, [.wifiMode 1]) :=
  (c7_join_validates_before_ap {} (List.replicate 33 97) [115] (.ok ()) []).1 (by decide)

/-! ## Infrastructure for the restart claim. -/

/-- The verdict of a finished run, if any. -/
def runVerdict {ε : Type} : RunResult ε → Option (Except ε Unit)
  | .done r _ => some r
  | .pending _ => none
  | .panicked => none

/-- URC events whose handling cannot hit the socket-array index panic. -/
def urcSafe : Urc → Bool
  | .socketConnected i => decide (i < 5)
  | .socketClosed i => decide (i < 5)
  | _ => true

/-- Handling a benign URC (Ready, Echo or Unknown) only possibly flips the
`ready` flag. -/
theorem handleUrc_benign {s s' : Session} {u : Urc}
    (hb : u = .ready ∨ u = .echo ∨ u = .unknown)
    (h : handleUrc s u = some s') : s' = { s with ready := s'.ready } := by
  rcases hb with rfl | rfl | rfl <;> (cases h; rfl)

/-- Draining benign URCs only possibly flips the `ready` flag. -/
theorem processUrcs_benign {urcs : List Urc} :
    ∀ {s s' : Session}, processUrcs s urcs = some s' →
    (∀ u ∈ urcs, u = .ready ∨ u = .echo ∨ u = .unknown) →
    s' = { s with ready := s'.ready } := by
  induction urcs with
  | nil =>
    intro s s' h _
    cases h
    rfl
  | cons u rest ih =>
    intro s s' h hb
    unfold processUrcs at h
    split at h
    next => exact Option.noConfusion h
    next s1 h1 =>
      have e1 := handleUrc_benign (hb u (by simp)) h1
      have e2 := ih h (fun v hv => hb v (by simp [hv]))
      rw [e2, e1]

/-- Handling a non-Ready URC leaves the `ready` flag unchanged. -/
theorem handleUrc_ready_preserved {s s' : Session} {u : Urc} (hu : u ≠ .ready)
    (h : handleUrc s u = some s') : s'.ready = s.ready := by
  cases u <;> simp only [handleUrc] at h
  case ready => exact absurd rfl hu
  case socketConnected id => exact (writeState_fields h).2.2.2.1
  case socketClosed id => exact (writeState_fields h).2.2.2.1
  case dataAvailable id len =>
    split at h
    · exact (writeDataAvailable_fields h).2.2.2.1
    · cases h; rfl
  all_goals (cases h; rfl)

/-- Draining Ready-free URCs leaves the `ready` flag unchanged. -/
theorem processUrcs_ready_preserved {urcs : List Urc} :
    ∀ {s s' : Session}, processUrcs s urcs = some s' →
    (∀ u ∈ urcs, u ≠ .ready) → s'.ready = s.ready := by
  induction urcs with
  | nil => intro s s' h _; cases h; rfl
  | cons u rest ih =>
    intro s s' h hb
    unfold processUrcs at h
    split at h
    next => exact Option.noConfusion h
    next s1 h1 =>
      exact (ih h (fun v hv => hb v (by simp [hv]))).trans
        (handleUrc_ready_preserved (hb u (by simp)) h1)

/-- On a 5-slot session, handling a safe URC never panics. -/
theorem handleUrc_safe {s : Session} {u : Urc} (hLen : s.sockets.length = 5)
    (hu : urcSafe u = true) : ∃ s', handleUrc s u = some s' := by
  cases u <;> simp only [handleUrc, urcSafe] at *
  case socketConnected id =>
    have hid : id < 5 := of_decide_eq_true hu
    obtain ⟨x, hx⟩ := list_get?_exists (l := s.sockets) (i := id) (by omega)
    exact ⟨_, by unfold writeState; rw [hx]⟩
  case socketClosed id =>
    have hid : id < 5 := of_decide_eq_true hu
    obtain ⟨x, hx⟩ := list_get?_exists (l := s.sockets) (i := id) (by omega)
    exact ⟨_, by unfold writeState; rw [hx]⟩
  case dataAvailable id len =>
    by_cases hid : id < s.sockets.length
    · obtain ⟨x, hx⟩ := list_get?_exists hid
      exact ⟨_, by rw [if_pos hid]; unfold writeDataAvailable; rw [hx]⟩
    · exact ⟨s, by rw [if_neg hid]⟩
  all_goals exact ⟨_, rfl⟩

/-- On a 5-slot session, draining safe URCs never panics. -/
theorem processUrcs_safe {urcs : List Urc} :
    ∀ {s : Session}, s.sockets.length = 5 →
    (∀ u ∈ urcs, urcSafe u = true) → ∃ s', processUrcs s urcs = some s' := by
  induction urcs with
  | nil => intro s _ _; exact ⟨s, rfl⟩
  | cons u rest ih =>
    intro s hLen hb
    obtain ⟨s1, h1⟩ := handleUrc_safe hLen (hb u (by simp))
    have hLen1 : s1.sockets.length = 5 := ((handleUrc_invariants h1).1).trans hLen
    obtain ⟨s', h'⟩ := ih hLen1 (fun v hv => hb v (by simp [hv]))
    exact ⟨s', by unfold processUrcs; rw [h1]; exact h'⟩

/-- A successful exit of the restart waiting loop has `ready` set, preserves
the latches, and — when only benign URCs were drained — leaves the session
as it entered up to the `ready` flag. -/
theorem restartLoop_ok_spec : ∀ (trace : List (TimerWait × List Urc)) (s s' : Session),
    restartLoop s trace = .done (.ok ()) s' →
    s'.ready = true ∧
    s'.multiConnectionsEnabled = s.multiConnectionsEnabled ∧
    s'.passiveModeEnabled = s.passiveModeEnabled ∧
    ((∀ p ∈ trace, ∀ u ∈ p.2, u = .ready ∨ u = .echo ∨ u = .unknown) →
      s' = { s with ready := s'.ready }) := by
  intro trace
  induction trace with
  | nil =>
    intro s s' h
    unfold restartLoop at h
    split at h
    next hr => cases h; exact ⟨hr, rfl, rfl, fun _ => rfl⟩
    next => exact RunResult.noConfusion h
  | cons p rest ih =>
    intro s s' h
    obtain ⟨w, urcs⟩ := p
    unfold restartLoop at h
    split at h
    next hr => cases h; exact ⟨hr, rfl, rfl, fun _ => rfl⟩
    next hr =>
      split at h
      next => simp at h
      next => simp at h
      next =>
        split at h
        next => exact RunResult.noConfusion h
        next s1 h1 =>
          obtain ⟨r1, r2, r3, r4⟩ := ih s1 s' h
          obtain ⟨q1, q2, q3⟩ := processUrcs_invariants h1
          refine ⟨r1, r2.trans q2, r3.trans q3, fun hb => ?_⟩
          have e1 := processUrcs_benign h1 (hb (.wouldBlock, urcs) (by simp))
          have e2 := r4 (fun q hq => hb q (by simp [hq]))
          rw [e2, e1]

/-- If the timer fires while no Ready URC has been drained (and no timer
failure or unsafe URC intervenes), the restart waiting loop verdicts
ReadyTimeout. -/
theorem restartLoop_timeout : ∀ (trace : List (TimerWait × List Urc)) (s : Session),
    s.sockets.length = 5 → s.ready = false →
    (∀ p ∈ trace, p.1 ≠ .failed ∧ ∀ u ∈ p.2, u ≠ .ready ∧ urcSafe u = true) →
    (∃ p ∈ trace, p.1 = .expired) →
    runVerdict (restartLoop s trace) = some (.error .readyTimeout) := by
  intro trace
  induction trace with
  | nil =>
    intro s _ _ _ hex
    simp at hex
  | cons p rest ih =>
    intro s hLen hReady hsafe hex
    obtain ⟨w, urcs⟩ := p
    unfold restartLoop
    rw [if_neg (by rw [hReady]; exact Bool.false_ne_true)]
    cases w with
    | expired => rfl
    | failed => exact absurd rfl ((hsafe (.failed, urcs) (by simp)).1)
    | wouldBlock =>
      obtain ⟨s1, h1⟩ := processUrcs_safe hLen
        (fun u hu => ((hsafe (.wouldBlock, urcs) (by simp)).2 u hu).2)
      rw [h1]
      have hLen1 : s1.sockets.length = 5 := ((processUrcs_invariants h1).1).trans hLen
      have hReady1 : s1.ready = false :=
        (processUrcs_ready_preserved h1
          (fun u hu => ((hsafe (.wouldBlock, urcs) (by simp)).2 u hu).1)).trans hReady
      refine ih s1 hLen1 hReady1 (fun q hq => hsafe q (by simp [hq])) ?_
      obtain ⟨q, hq, hqe⟩ := hex
      rcases (by simpa using hq : q = (.wouldBlock, urcs) ∨ q ∈ rest) with rfl | hmem
      · exact absurd hqe (by simp)
      · exact ⟨q, hmem, hqe⟩

/-- Counterexample to claim C6 as stated: a stale 0,CONNECT URC drained
while waiting for the ready banner leaves slot 0 Connected — restart()
returns Ok but not every socket slot is Closed. -/
theorem c6_counterexample :
    restart { sockets := [{ state := .connected }, {}, {}, {}, {}] } (.ok ()) (.ok ())
        [(.wouldBlock, [.socketConnected 0, .ready])]
      = .done (.ok ())
          { ready := true, sockets := [{ state := .connected }, {}, {}, {}, {}] } ∧
    readState { ready := true, sockets := [{ state := .connected }, {}, {}, {}, {}] } 0
      = some ConnectionState.connected := by
  refine ⟨?_, ?_⟩ <;> decide

/-- Claim C6 (amended): when restart() returns Ok the session was first
reset to defaults and then updated only by the URCs drained while waiting
for readiness: `ready` is true and the multi-connection and passive-receive
latches are cleared (so a later socket() re-issues CIPMUX); if moreover only
Ready/Echo/Unknown URCs were drained, the final session is exactly the
default session marked ready — all five slots Closed, joined and ip_assigned
false. If the 5-second timer fires before any Ready URC (and the drained
URCs are in-range), restart() returns ReadyTimeout. -/
theorem c6_restart_characterization (s : Session) (resp : Except AtError Unit)
    (ts : Except Unit Unit) (trace : List (TimerWait × List Urc)) :
    (∀ s', restart s resp ts trace = .done (.ok ()) s' →
      s'.ready = true ∧ s'.multiConnectionsEnabled = false ∧
      s'.passiveModeEnabled = false) ∧
    (∀ s', restart s resp ts trace = .done (.ok ()) s' →
      (∀ p ∈ trace, ∀ u ∈ p.2, u = .ready ∨ u = .echo ∨ u = .unknown) →
      s' = { ready := true }) ∧
    (resp = .ok () → ts = .ok () →
      (∀ p ∈ trace, p.1 ≠ .failed ∧ ∀ u ∈ p.2, u ≠ .ready ∧ urcSafe u = true) →
      (∃ p ∈ trace, p.1 = .expired) →
      runVerdict (restart s resp ts trace) = some (.error .readyTimeout)) := by
  refine ⟨fun s' h => ?_, fun s' h hb => ?_, fun hresp hts hsafe hex => ?_⟩
  · unfold restart at h
    cases resp with
    | error e => simp at h
    | ok _ =>
      cases ts with
      | error _ => simp at h
      | ok _ =>
        obtain ⟨r1, r2, r3, _⟩ := restartLoop_ok_spec trace {} s' h
        exact ⟨r1, r2, r3⟩
  · unfold restart at h
    cases resp with
    | error e => simp at h
    | ok _ =>
      cases ts with
      | error _ => simp at h
      | ok _ =>
        obtain ⟨r1, _, _, r4⟩ := restartLoop_ok_spec trace {} s' h
        rw [r4 hb, r1]
  · subst hresp
    subst hts
    unfold restart
    exact restartLoop_timeout trace {} rfl rfl hsafe hex

/-- Witness for C6 (amended): a restart whose wait drains exactly one Ready
URC ends in the default session marked ready. -/
theorem c6_restart_characterization_witness :
    ({ ready := true : Session } : Session) = { ready := true } :=
  (c6_restart_characterization { joined := true } (.ok ()) (.ok ())
      [(.wouldBlock, [.ready])]).2.1
    { ready := true } (by decide) (by decide)

/-- `parse_link_id` only ever returns link ids 0..4. -/
theorem parseLinkId_lt {b id : Nat} (h : parseLinkId b = some id) : id < 5 := by
  unfold parseLinkId at h
  repeat' split at h
  all_goals first
    | exact Option.noConfusion h
    | (cases h; omega)

/-- Every event produced by `parse_data_available` is safe to handle. -/
theorem parseDataAvailable_safe {d : Bytes} {u : Urc}
    (h : parseDataAvailable d = some (some u)) : urcSafe u = true := by
  unfold parseDataAvailable at h
  repeat' split at h
  all_goals try (dsimp only at h)
  all_goals repeat' split at h
  all_goals try exact Option.noConfusion h
  all_goals (cases h; try rfl)

/-- The terminal line-needle chain of the second-pass parser only produces
events without a link id, which are always safe. -/
theorem urcParseTail_safe (body : Bytes) {u : Urc}
    (h : (if body == readyNeedle then UrcParse.event .ready
          else if body == sendOkNeedle then .event .sendConfirmation
          else if body == sendFailNeedle then .event .sendFail
          else if body == wifiConnectedNeedle then .event .wifiConnected
          else if body == wifiDisconnectNeedle then .event .wifiDisconnected
          else if body == wifiGotIpNeedle then .event .receivedIP
          else if body == alreadyConnectedNeedle then .event .alreadyConnected
          else .event .unknown) = .event u) : urcSafe u = true := by
  cases hc : (body == readyNeedle)
  on_goal 2 => rw [hc, if_pos rfl] at h; cases h; rfl
  rw [hc, if_neg Bool.false_ne_true] at h
  cases hc : (body == sendOkNeedle)
  on_goal 2 => rw [hc, if_pos rfl] at h; cases h; rfl
  rw [hc, if_neg Bool.false_ne_true] at h
  cases hc : (body == sendFailNeedle)
  on_goal 2 => rw [hc, if_pos rfl] at h; cases h; rfl
  rw [hc, if_neg Bool.false_ne_true] at h
  cases hc : (body == wifiConnectedNeedle)
  on_goal 2 => rw [hc, if_pos rfl] at h; cases h; rfl
  rw [hc, if_neg Bool.false_ne_true] at h
  cases hc : (body == wifiDisconnectNeedle)
  on_goal 2 => rw [hc, if_pos rfl] at h; cases h; rfl
  rw [hc, if_neg Bool.false_ne_true] at h
  cases hc : (body == wifiGotIpNeedle)
  on_goal 2 => rw [hc, if_pos rfl] at h; cases h; rfl
  rw [hc, if_neg Bool.false_ne_true] at h
  cases hc : (body == alreadyConnectedNeedle)
  on_goal 2 => rw [hc, if_pos rfl] at h; cases h; rfl
  rw [hc, if_neg Bool.false_ne_true] at h
  cases h
  rfl

/-- Every event produced by the second-pass parser is safe to handle: in
particular SocketConnected and SocketClosed only carry link ids 0..4. -/
theorem urcParse_safe (rx : Nat) (resp : Bytes) {u : Urc}
    (h : urcParse rx resp = .event u) : urcSafe u = true := by
  unfold urcParse at h
  split at h
  next => exact UrcParse.noConfusion h
  next p3 hp3 =>
  cases hc1 : (p3 == atPlusNeedle)
  on_goal 2 => rw [hc1, if_pos rfl] at h; cases h; rfl
  rw [hc1, if_neg Bool.false_ne_true] at h
  split at h
  next => exact UrcParse.noConfusion h
  next p4 hp4 =>
  cases hc2 : (p4 == ipdNeedle)
  on_goal 2 =>
    rw [hc2, if_pos rfl] at h
    split at h
    next => exact UrcParse.noConfusion h
    next => exact UrcParse.noConfusion h
    next hda => cases h; exact parseDataAvailable_safe hda
  rw [hc2, if_neg Bool.false_ne_true] at h
  cases hc3 : (decide (15 < resp.length) && (resp.take 13 == cipRecvDataComma))
  on_goal 2 =>
    rw [hc3, if_pos rfl] at h
    split at h
    next => exact UrcParse.noConfusion h
    next => exact UrcParse.noConfusion h
    next => exact UrcParse.noConfusion h
    next =>
      split at h
      · cases h; rfl
      · exact UrcParse.noConfusion h
  rw [hc3, if_neg Bool.false_ne_true] at h
  split at h
  next => exact UrcParse.noConfusion h
  next mid hmid =>
  cases hc4 : (mid == connectNeedle)
  on_goal 2 =>
    rw [hc4, if_pos rfl] at h
    split at h
    next => exact UrcParse.noConfusion h
    next b hb =>
      split at h
      next hlink => cases h; exact decide_eq_true (parseLinkId_lt hlink)
      next => exact UrcParse.noConfusion h
  rw [hc4, if_neg Bool.false_ne_true] at h
  cases hc5 : (mid == closedNeedle)
  on_goal 2 =>
    rw [hc5, if_pos rfl] at h
    split at h
    next => exact UrcParse.noConfusion h
    next b hb =>
      split at h
      next hlink => cases h; exact decide_eq_true (parseLinkId_lt hlink)
      next => exact UrcParse.noConfusion h
  rw [hc5, if_neg Bool.false_ne_true] at h
  cases hc6 : (p4 == recvNeedle)
  on_goal 2 =>
    rw [hc6, if_pos rfl] at h
    split at h
    next => exact UrcParse.noConfusion h
    next => exact UrcParse.noConfusion h
    next => cases h; rfl
  rw [hc6, if_neg Bool.false_ne_true] at h
  split at h
  next => exact UrcParse.noConfusion h
  next body hbody => exact urcParseTail_safe body h

/-- Claim C9: applying any URC event produced by the second-pass parser to a
5-slot session never indexes the socket array out of bounds (SocketConnected
and SocketClosed events always carry a link id in 0..4), and a DataAvailable
event whose link id is 5 or greater is silently ignored, leaving the session
unchanged. -/
theorem c9_parsed_events_handle_safely (rx : Nat) (resp : Bytes) (u : Urc)
    (s : Session) (id len : Nat)
    (hLen : s.sockets.length = 5)
    (h : urcParse rx resp = .event u) :
    (handleUrc s u).isSome = true ∧
    (u = .dataAvailable id len → 5 ≤ id → handleUrc s u = some s) := by
  refine ⟨?_, ?_⟩
  · obtain ⟨s', hs'⟩ := handleUrc_safe hLen (urcParse_safe rx resp h)
    rw [hs']
    rfl
  · rintro rfl hid
    simp only [handleUrc]
    rw [if_neg (by omega)]

/-- Witness for C9: the +IPD frame for out-of-range link id 7 parses to a
DataAvailable event that handle_urc ignores, leaving the session unchanged. -/
theorem c9_parsed_events_handle_safely_witness :
    (handleUrc {} (.dataAvailable 7 10)).isSome = true ∧
    handleUrc {} (.dataAvailable 7 10) = some {} :=
  ⟨(c9_parsed_events_handle_safely 32 [43, 73, 80, 68, 44, 55, 44, 49, 48, 13, 10]
      (.dataAvailable 7 10) {} 7 10 (by decide) (by decide)).1,
   (c9_parsed_events_handle_safely 32 [43, 73, 80, 68, 44, 55, 44, 49, 48, 13, 10]
      (.dataAvailable 7 10) {} 7 10 (by decide) (by decide)).2 rfl (by omega)⟩

/-! ## IPv6 codec (src/commands.rs `ipv6_to_string`). -/

/-- Lowercase hex digit character of a nibble (base16::EncodeLower). -/
def hexDigitChar (n : Nat) : Nat := if n < 10 then 48 + n else 87 + n

/-- `u16::to_be_bytes` of a segment: big-endian byte pair. -/
def segToBeBytes (seg : Nat) : List Nat := [seg / 256 % 256, seg % 256]

/-- base16 lowercase encoding of one byte: two hex digit characters. -/
def hexEncodeByte (b : Nat) : Bytes := [hexDigitChar (b / 16), hexDigitChar (b % 16)]

/-- `base16::encode_config_slice(&segment.to_be_bytes(), EncodeLower, ..)`:
exactly four lowercase hex digit characters, leading zeros included. -/
def encodeSegmentHex (seg : Nat) : Bytes := ((segToBeBytes seg).map hexEncodeByte).join

/-- One loop iteration of `ipv6_to_string`: an all-zero segment is written
as the single character 0, any other as its four hex digits. -/
def writeSegment (seg : Nat) : Bytes := if seg = 0 then [48] else encodeSegmentHex seg

/-- `ipv6_to_string` (src/commands.rs lines 228-251): writes each segment
followed by a colon after every index other than 7. -/
def ipv6ToString (segs : List Nat) : Bytes :=
  (segs.enum.map (fun p => writeSegment p.2 ++ if p.1 ≠ 7 then [58] else [])).join

/-- Value of a lowercase hex digit character per the textual IPv6 format. -/
def hexDigitVal (c : Nat) : Option Nat :=
  if 48 ≤ c ∧ c ≤ 57 then some (c - 48)
  else if 97 ≤ c ∧ c ≤ 102 then some (c - 87)
  else none

/-- Specification-side reading of one colon-separated group: a nonempty
string of lowercase hex digits, most significant first. -/
def parseHexGroup (g : Bytes) : Option Nat :=
  if g = [] then none
  else
    g.foldl (fun acc c =>
      match acc, hexDigitVal c with
      | some a, some v => some (a * 16 + v)
      | _, _ => none) (some 0)

/-- Reads every group of an address. -/
def parseGroups : List Bytes → Option (List Nat)
  | [] => some []
  | g :: gs =>
    match parseHexGroup g, parseGroups gs with
    | some v, some l => some (v :: l)
    | _, _ => none

/-- Specification-side reading of an IPv6 address string, following the
spec's words: exactly eight colon-joined hex groups (no elision), yielding
the group values. This definition is the comparison point for the
source-derived encoder `ipv6ToString`. -/
def ipv6StringSegments (s : Bytes) : Option (List Nat) :=
  if (splitOnByte 58 s).length = 8 then parseGroups (splitOnByte 58 s) else none

/-- Characters a colon-joined lowercase hex address may contain. -/
def lowerHexOrColon (c : Nat) : Bool :=
  (c == 58) || (decide (48 ≤ c) && decide (c ≤ 57)) || (decide (97 ≤ c) && decide (c ≤ 102))

theorem splitOnByte_no_sep {c : Nat} : ∀ {p : Bytes}, c ∉ p → splitOnByte c p = [p] := by
  intro p
  induction p with
  | nil => intro _; rfl
  | cons b rest ih =>
    intro hmem
    unfold splitOnByte
    rw [if_neg (by intro hbc; subst hbc; exact hmem (List.mem_cons_self _ _))]
    rw [ih (fun hm => hmem (List.mem_cons_of_mem _ hm))]

theorem splitOnByte_append {c : Nat} : ∀ {p : Bytes} (rest : Bytes), c ∉ p →
    splitOnByte c (p ++ c :: rest) = p :: splitOnByte c rest := by
  intro p
  induction p with
  | nil =>
    intro rest _
    show splitOnByte c (c :: rest) = [] :: splitOnByte c rest
    simp only [splitOnByte]
    exact if_pos trivial
  | cons b p' ih =>
    intro rest hmem
    show splitOnByte c (b :: (p' ++ c :: rest)) = (b :: p') :: splitOnByte c rest
    simp only [splitOnByte]
    rw [if_neg (by intro hbc; subst hbc; exact hmem (List.mem_cons_self _ _))]
    rw [ih rest (fun hm => hmem (List.mem_cons_of_mem _ hm))]

theorem hexDigitVal_hexDigitChar {n : Nat} (h : n < 16) :
    hexDigitVal (hexDigitChar n) = some n := by
  unfold hexDigitChar hexDigitVal
  by_cases h10 : n < 10
  · rw [if_pos h10, if_pos (by omega)]
    congr 1
    omega
  · rw [if_neg h10, if_neg (by omega), if_pos (by omega)]
    congr 1
    omega

theorem hexDigitChar_ne_colon {n : Nat} (h : n < 16) : hexDigitChar n ≠ 58 := by
  unfold hexDigitChar
  split <;> omega

theorem lowerHexOrColon_hexDigitChar {n : Nat} (h : n < 16) :
    lowerHexOrColon (hexDigitChar n) = true := by
  unfold lowerHexOrColon hexDigitChar
  split <;> simp <;> omega

/-- The four hex digit characters of a 16-bit segment, explicitly. -/
theorem encodeSegmentHex_eq (x : Nat) :
    encodeSegmentHex x = [hexDigitChar (x / 256 % 256 / 16), hexDigitChar (x / 256 % 256 % 16),
      hexDigitChar (x % 256 / 16), hexDigitChar (x % 256 % 16)] := rfl

theorem writeSegment_no_colon (x : Nat) : 58 ∉ writeSegment x := by
  unfold writeSegment
  split
  · decide
  · rw [encodeSegmentHex_eq]
    intro hmem
    simp only [List.mem_cons, List.not_mem_nil, or_false] at hmem
    rcases hmem with h | h | h | h
    · exact hexDigitChar_ne_colon (show x / 256 % 256 / 16 < 16 by omega) h.symm
    · exact hexDigitChar_ne_colon (show x / 256 % 256 % 16 < 16 by omega) h.symm
    · exact hexDigitChar_ne_colon (show x % 256 / 16 < 16 by omega) h.symm
    · exact hexDigitChar_ne_colon (show x % 256 % 16 < 16 by omega) h.symm

theorem writeSegment_all_lowerHex (x : Nat) :
    (writeSegment x).all lowerHexOrColon = true := by
  unfold writeSegment
  split
  · decide
  · rw [encodeSegmentHex_eq]
    simp only [List.all_cons, List.all_nil, Bool.and_true]
    rw [lowerHexOrColon_hexDigitChar (show x / 256 % 256 / 16 < 16 by omega),
      lowerHexOrColon_hexDigitChar (show x / 256 % 256 % 16 < 16 by omega),
      lowerHexOrColon_hexDigitChar (show x % 256 / 16 < 16 by omega),
      lowerHexOrColon_hexDigitChar (show x % 256 % 16 < 16 by omega)]
    rfl

theorem parseHexGroup_writeSegment {x : Nat} (hx : x < 65536) :
    parseHexGroup (writeSegment x) = some x := by
  unfold writeSegment
  split
  next h0 => subst h0; rfl
  next h0 =>
    rw [encodeSegmentHex_eq]
    unfold parseHexGroup
    rw [if_neg (by simp)]
    simp only [List.foldl,
      hexDigitVal_hexDigitChar (show x / 256 % 256 / 16 < 16 by omega),
      hexDigitVal_hexDigitChar (show x / 256 % 256 % 16 < 16 by omega),
      hexDigitVal_hexDigitChar (show x % 256 / 16 < 16 by omega),
      hexDigitVal_hexDigitChar (show x % 256 % 16 < 16 by omega)]
    congr 1
    omega

theorem list_length_eight {α : Type} {xs : List α} (h : xs.length = 8) :
    ∃ s0 s1 s2 s3 s4 s5 s6 s7, xs = [s0, s1, s2, s3, s4, s5, s6, s7] := by
  cases xs with
  | nil => exact absurd h (by simp)
  | cons s0 t =>
  cases t with
  | nil => exact absurd h (by simp)
  | cons s1 t =>
  cases t with
  | nil => exact absurd h (by simp)
  | cons s2 t =>
  cases t with
  | nil => exact absurd h (by simp)
  | cons s3 t =>
  cases t with
  | nil => exact absurd h (by simp)
  | cons s4 t =>
  cases t with
  | nil => exact absurd h (by simp)
  | cons s5 t =>
  cases t with
  | nil => exact absurd h (by simp)
  | cons s6 t =>
  cases t with
  | nil => exact absurd h (by simp)
  | cons s7 t =>
  cases t with
  | nil => exact ⟨s0, s1, s2, s3, s4, s5, s6, s7, rfl⟩
  | cons s8 t =>
    exact absurd h (by simp only [List.length_cons]; omega)

/-- Claim C8: for every IPv6 address (8 segments, each below 2^16), the
codec's string encoding is exactly the 8 colon-joined groups produced by
`writeSegment` (so an all-zero segment is the single character 0 and there
is never a :: elision), every character is a lowercase hex digit or a colon,
and parsing the encoding back per the spec's textual format recovers the
original segments. -/
theorem c8_ipv6_roundtrip (segs : List Nat) (h8 : segs.length = 8)
    (hb : ∀ x ∈ segs, x < 65536) :
    splitOnByte 58 (ipv6ToString segs) = segs.map writeSegment ∧
    (ipv6ToString segs).all lowerHexOrColon = true ∧
    ipv6StringSegments (ipv6ToString segs) = some segs := by
  obtain ⟨a0, a1, a2, a3, a4, a5, a6, a7, rfl⟩ := list_length_eight h8
  have hsplit : splitOnByte 58 (ipv6ToString [a0, a1, a2, a3, a4, a5, a6, a7])
      = [writeSegment a0, writeSegment a1, writeSegment a2, writeSegment a3,
         writeSegment a4, writeSegment a5, writeSegment a6, writeSegment a7] := by
    show splitOnByte 58
        ((writeSegment a0 ++ [58]) ++ ((writeSegment a1 ++ [58]) ++ ((writeSegment a2 ++ [58])
          ++ ((writeSegment a3 ++ [58]) ++ ((writeSegment a4 ++ [58]) ++ ((writeSegment a5 ++ [58])
          ++ ((writeSegment a6 ++ [58]) ++ ((writeSegment a7 ++ []) ++ []))))))))
        = _
    simp only [List.append_nil, List.append_assoc, List.cons_append, List.nil_append]
    rw [splitOnByte_append _ (writeSegment_no_colon a0),
      splitOnByte_append _ (writeSegment_no_colon a1),
      splitOnByte_append _ (writeSegment_no_colon a2),
      splitOnByte_append _ (writeSegment_no_colon a3),
      splitOnByte_append _ (writeSegment_no_colon a4),
      splitOnByte_append _ (writeSegment_no_colon a5),
      splitOnByte_append _ (writeSegment_no_colon a6),
      splitOnByte_no_sep (writeSegment_no_colon a7)]
  refine ⟨hsplit, ?_, ?_⟩
  · show ((writeSegment a0 ++ [58]) ++ ((writeSegment a1 ++ [58]) ++ ((writeSegment a2 ++ [58])
        ++ ((writeSegment a3 ++ [58]) ++ ((writeSegment a4 ++ [58]) ++ ((writeSegment a5 ++ [58])
        ++ ((writeSegment a6 ++ [58]) ++ ((writeSegment a7 ++ []) ++ [])))))))).all
          lowerHexOrColon = true
    simp only [List.all_append, List.all_cons, List.all_nil, writeSegment_all_lowerHex,
      Bool.and_true, Bool.true_and]
    rfl
  · unfold ipv6StringSegments
    rw [hsplit]
    rw [if_pos (by simp)]
    simp only [parseGroups,
      parseHexGroup_writeSegment (hb a0 (by simp)),
      parseHexGroup_writeSegment (hb a1 (by simp)),
      parseHexGroup_writeSegment (hb a2 (by simp)),
      parseHexGroup_writeSegment (hb a3 (by simp)),
      parseHexGroup_writeSegment (hb a4 (by simp)),
      parseHexGroup_writeSegment (hb a5 (by simp)),
      parseHexGroup_writeSegment (hb a6 (by simp)),
      parseHexGroup_writeSegment (hb a7 (by simp))]

/-- Witness for C8: the address 0:1:2a:ffff:0:0:beef:7 round-trips. -/
theorem c8_ipv6_roundtrip_witness :
    splitOnByte 58 (ipv6ToString [0, 1, 42, 65535, 0, 0, 48879, 7])
        = [0, 1, 42, 65535, 0, 0, 48879, 7].map writeSegment ∧
    (ipv6ToString [0, 1, 42, 65535, 0, 0, 48879, 7]).all lowerHexOrColon = true ∧
    ipv6StringSegments (ipv6ToString [0, 1, 42, 65535, 0, 0, 48879, 7])
        = some [0, 1, 42, 65535, 0, 0, 48879, 7] :=
  c8_ipv6_roundtrip [0, 1, 42, 65535, 0, 0, 48879, 7] (by decide) (by decide)

end EspAtNal
